import Mathlib

/-!
# Verification of the Aeris.js tile-animation and API-serialization code

A shallow embedding, in Lean 4, of the parts of the Aeris.js repository that
the verified properties talk about:

* `src/src/maps/animations/tileanimation.js` — the `TileAnimation` object:
  timeline management (`setTimeLayers_`, `getOrderedTimesFromLayers_`,
  `getTimes`), nearest-time lookup (`getClosestTime_`, `getLayerForTime_`),
  frame stepping (`next`, `previous`, `getNextTime_`, `getPreviousTime_`),
  time selection (`goToTime`), and frame transitions (`transition_`,
  `transitionNotLoadedLayer_`, `syncLayerToMaster_`, `getTimeDeviation_`).
* `src/tests/spec/aeris/aerisapi.js` — the unit-test vectors for
  `AerisAPI.serializeToURI`.
* `src/src/api/collections/geojsonfeaturecollection.js` — GeoJSON
  parsing and re-serialization.

JavaScript numbers that hold UNIX timestamps are embedded as `Int`;
JavaScript's `undefined` results are embedded as `Option`.  Event-driven
behaviour (Backbone-style listeners) is embedded as explicit state: the
pending one-time listeners registered by the code are fields of the state
record, and "an event fires" is a function from states to states.
-/

deriving instance DecidableEq for Except

namespace Aeris

/-! ## JavaScript values (for the URI serializer and GeoJSON data)

A mutually-inductive embedding of the JSON-like values that
`AerisAPI.serializeToURI` receives.  The mutual shape (instead of
`List JVal`) keeps every function on it structurally recursive, so concrete
test vectors evaluate by `rfl`/`decide`. -/

mutual

inductive JVal where
  | str (s : String)
  | num (n : Int)
  | boolv (b : Bool)
  | null
  | undef
  | arr (xs : JArr)
  | obj (fs : JObj)
deriving DecidableEq

inductive JArr where
  | nil
  | cons (v : JVal) (rest : JArr)
deriving DecidableEq

inductive JObj where
  | nil
  | cons (k : String) (v : JVal) (rest : JObj)
deriving DecidableEq

end

/-- JS `typeof v === 'object' && v != null`: arrays and objects. -/
def JVal.isComposite : JVal → Bool
  | .arr _ => true
  | .obj _ => true
  | _ => false

/-- The UTF-8 bytes of a character (as natural numbers). -/
def utf8Bytes (c : Char) : List Nat :=
  let n := c.toNat
  if n < 128 then [n]
  else if n < 2048 then [192 + n / 64, 128 + n % 64]
  else if n < 65536 then [224 + n / 4096, 128 + (n / 64) % 64, 128 + n % 64]
  else [240 + n / 262144, 128 + (n / 4096) % 64, 128 + (n / 64) % 64, 128 + n % 64]

/-- Upper-case hexadecimal digit. -/
def hexDigit (n : Nat) : Char :=
  if n < 10 then Char.ofNat (48 + n) else Char.ofNat (55 + n)

/-- `%XY` percent-encoding of one byte. -/
def percentEncodeByte (b : Nat) : List Char :=
  [Char.ofNat 37, hexDigit (b / 16), hexDigit (b % 16)]

/-- Characters left unescaped by JavaScript's `encodeURIComponent`:
alphanumerics and `- _ . ! ~ * ' ( )`. -/
def isUnreservedChar (c : Char) : Bool :=
  c.isAlphanum || [45, 95, 46, 33, 126, 42, 39, 40, 41].contains c.toNat

/-- One character of `encodeURIComponent`, with jQuery's final
`.replace(/%20/g, '+')` fused in: a space becomes `+` directly.  This is
observationally the same, because `%` itself is always escaped to `%25`, so
the only `%20` runs in the joined string come from encoded spaces. -/
def encodeChar (c : Char) : List Char :=
  if c.toNat = 32 then [Char.ofNat 43]
  else if isUnreservedChar c then [c]
  else ((utf8Bytes c).map percentEncodeByte).flatten

def encodeURIComponent (s : String) : String :=
  String.mk (s.toList.map encodeChar).flatten

/-- The string a scalar value contributes to a query pair
(`value == null ? '' : String(value)` in the jQuery source); `none` stands
for JS `null`/`undefined`, which serialize as the empty string. -/
def scalarToString : JVal → Option String
  | .str s => some s
  | .num n => some (toString n)
  | .boolv b => some (if b then "true" else "false")
  | _ => none

/-- One `key=value` pair, both sides URI-encoded. -/
def addParam (key : String) (value : Option String) : String :=
  encodeURIComponent key ++ "=" ++ encodeURIComponent (value.getD "")

/-- Does the key end in `[]` (the jQuery serializer's `/\[\]$/` test)? -/
def endsWithBrackets (s : String) : Bool :=
  s.toList.reverse.take 2 == [Char.ofNat 93, Char.ofNat 91]

mutual

/-- Modelled from the spec: `AerisAPI.serializeToURI` itself is not under
`src/` — only its Jasmine spec is, and that spec says the serializer tests
are borrowed from jQuery.  This is jQuery's `buildParams` recursion:
arrays become repeated `key[]=` pairs (with an explicit index for composite
elements), objects become `key[name]=` pairs, scalars become one pair. -/
def buildParams (key : String) : JVal → List String
  | .arr xs => buildParamsArr key 0 xs
  | .obj fs => buildParamsObj key fs
  | v => [addParam key (scalarToString v)]

def buildParamsArr (key : String) (i : Nat) : JArr → List String
  | .nil => []
  | .cons v rest =>
      (if endsWithBrackets key then [addParam key (scalarToString v)]
       else buildParams (key ++ "[" ++ (if v.isComposite then toString i else "") ++ "]") v)
      ++ buildParamsArr key (i + 1) rest

def buildParamsObj (key : String) : JObj → List String
  | .nil => []
  | .cons k v rest => buildParams (key ++ "[" ++ k ++ "]") v ++ buildParamsObj key rest

end

def serializeToURIpairs : JObj → List String
  | .nil => []
  | .cons k v rest => buildParams k v ++ serializeToURIpairs rest

/-- Modelled from the spec: `AerisAPI.serializeToURI` (absent from `src/`)
serializes a parameter object to a URI query string, jQuery-`$.param` style:
the `key=value` pairs of `buildParams`, joined by `&`, with spaces shown
as `+`. -/
def serializeToURI (params : JObj) : String :=
  String.intercalate "&" (serializeToURIpairs params)

/-! ## `aeris/util/findclosest` -/

/-- The loop of `findClosest`: scan the numbers, keeping the first value seen
whose distance to the target is strictly smaller than the best so far. -/
def findClosestFrom (target : Int) : Option Int → List Int → Option Int
  | best, [] => best
  | none, n :: rest => findClosestFrom target (some n) rest
  | some c, n :: rest =>
      if (target - n).natAbs < (target - c).natAbs then findClosestFrom target (some n) rest
      else findClosestFrom target (some c) rest

/-- Modelled from the spec: `aeris/util/findclosest` is not under `src/`; the
spec describes it as "nearest-timestamp lookup in a small sorted array".
Returns a value of the list at minimal `|target - value|` (`none` — JS
`undefined` — on an empty list). -/
def findClosest (target : Int) (numbers : List Int) : Option Int :=
  findClosestFrom target none numbers

/-! ## The `TileAnimation` object (`src/src/maps/animations/tileanimation.js`)

State that lives on other objects but that the animation code reads or
writes is embedded into one record:

* each `aeris.maps.layers.AerisTile` animation frame carries the attributes
  the animation touches (`loaded`, `opacity`, and which attributes are bound
  to the master layer by `bindAttributesTo` / unbound by `stopListening`),
  plus an `id` standing for JavaScript object identity;
* the one-time listeners that `goToTime` registers on its own
  `'load:times'` event are counted in `pendingGoToTimeOnLoad`, and the
  one-time `'load'` listeners that `transitionNotLoadedLayer_` registers on
  a layer are kept in `pendingLayerLoad` (captured old-layer id, layer id);
* `Date.now()` is passed in explicitly as a `now` argument.
-/

/-- An `aeris.maps.layers.AerisTile` animation frame, as seen by
`TileAnimation`. -/
structure AerisTile where
  /-- stands for JavaScript object identity -/
  id : Nat
  loaded : Bool
  opacity : Int
  /-- attributes currently bound to the master layer (`bindAttributesTo`);
  `[]` after `stopListening(masterLayer_)` -/
  boundAttrs : List String
deriving DecidableEq, Repr

/-- Events the animation triggers that the claims observe.  `changeTime t`
stands for `trigger('change:time', new Date(t))`, `loadTimes` for
`trigger('load:times', ...)`. -/
inductive TAEvent where
  | changeTime (t : Int)
  | loadTimes
deriving DecidableEq, Repr

/-- The mutable state of a `TileAnimation` (fields keep the source names). -/
structure TAState where
  /-- hash of timestamp → tile layer -/
  timeLayers_ : List (Int × AerisTile)
  /-- ordered array of available timestamps -/
  times_ : List Int
  currentTime_ : Int
  timeTolerance_ : Int
  /-- does `masterLayer_.hasMap()` hold (used only by `preloadTimeLayer_`) -/
  masterHasMap : Bool
  /-- number of pending `listenToOnce(this, 'load:times', ...)` handlers
  registered by `goToTime` -/
  pendingGoToTimeOnLoad : Nat
  /-- pending `listenToOnce(newLayer, 'load', ...)` handlers registered by
  `transitionNotLoadedLayer_`: (captured old layer id, target layer id) -/
  pendingLayerLoad : List (Option Nat × Nat)
deriving DecidableEq, Repr

namespace TileAnimation

/-- The constructor's default `timeTolerance` option: two hours in ms. -/
def defaultTimeTolerance : Int := 1000 * 60 * 60 * 2

/-- The `TileAnimation` constructor: no layers or times are loaded yet, and
`timeTolerance_` is the option value, defaulting to two hours.  The initial
current time comes from `AbstractAnimation` (not under `src/`) and is passed
in. -/
def init (optTimeTolerance : Option Int) (currentTime0 : Int) (masterHasMap : Bool) :
    TAState :=
  { timeLayers_ := []
    times_ := []
    currentTime_ := currentTime0
    timeTolerance_ := optTimeTolerance.getD defaultTimeTolerance
    masterHasMap := masterHasMap
    pendingGoToTimeOnLoad := 0
    pendingLayerLoad := [] }

/-- `getOrderedTimesFromLayers_`: the integer keys of the hash, sorted
ascending (`_.sortBy(times, _.identity)`). -/
def getOrderedTimesFromLayers_ (timeLayers : List (Int × AerisTile)) : List Int :=
  List.insertionSort (· ≤ ·) (timeLayers.map Prod.fst)

/-- `setTimeLayers_`: store the frames and the ordered timeline. -/
def setTimeLayers_ (s : TAState) (timeLayers : List (Int × AerisTile)) : TAState :=
  { s with timeLayers_ := timeLayers
           times_ := getOrderedTimesFromLayers_ timeLayers }

/-- `getTimes` (`_.clone(this.times_)` — value-equal copy). -/
def getTimes (s : TAState) : List Int := s.times_

/-- The times on the same side of `Date.now()` as the target (the filter
inside `getClosestTime_`). -/
def sameTenseTimes (s : TAState) (now targetTime : Int) : List Int :=
  let isTargetInFuture := decide (targetTime > now)
  s.times_.filter fun time =>
    let isTimeInFuture := decide (time > now)
    (isTimeInFuture && isTargetInFuture) || (!isTimeInFuture && !isTargetInFuture)

/-- `getClosestTime_`: nearest available time, looking only at times in the
same tense (past/future relative to `Date.now()`) as the target. -/
def getClosestTime_ (s : TAState) (now targetTime : Int) : Option Int :=
  findClosest targetTime (sameTenseTimes s now targetTime)

/-- `getLayerForTime_`: the layer stored under the closest time
(JS `this.timeLayers_[this.getClosestTime_(time)]`, `undefined` when the
key is `undefined` or absent). -/
def getLayerForTime_ (s : TAState) (now time : Int) : Option AerisTile :=
  (getClosestTime_ s now time).bind fun c => s.timeLayers_.lookup c

/-- `getCurrentLayer`. -/
def getCurrentLayer (s : TAState) (now : Int) : Option AerisTile :=
  getLayerForTime_ s now s.currentTime_

/-- `getTimeDeviation_`: `Math.abs(time - closest)`; `none` when there is no
closest time (JS `NaN`). -/
def getTimeDeviation_ (s : TAState) (now time : Int) : Option Nat :=
  (getClosestTime_ s now time).map fun c => (time - c).natAbs

/-- `layer.setOpacity(v)`, applied to the stored entry with the given
identity. -/
def setOpacityOne (lid : Nat) (v : Int) (tl : Int × AerisTile) : Int × AerisTile :=
  if tl.2.id = lid then (tl.1, { tl.2 with opacity := v }) else tl

/-- Set the stored layer with the given identity to the given opacity
(`layer.setOpacity(v)` on an object held in `timeLayers_`). -/
def setLayerOpacityById (s : TAState) (lid : Nat) (v : Int) : TAState :=
  { s with timeLayers_ := s.timeLayers_.map (setOpacityOne lid v) }

/-- `preloadTimeLayer_`: a no-op on a loaded layer; otherwise (when the
master layer has a map) the deferred `layer.set({opacity: 0, map})` call,
modelled synchronously — nothing later in a transition touches this layer's
opacity before the deferred call would run.  The `map:` attribute itself
only triggers tile loading in the rendering library and is not modelled. -/
def preloadTimeLayer_ (s : TAState) (layer : AerisTile) : TAState :=
  if layer.loaded then s
  else if s.masterHasMap then setLayerOpacityById s layer.id 0
  else s

/-- `layer.bindAttributesTo(masterLayer_, ['map', 'opacity', 'zIndex'])`,
applied to the stored entry with the given identity. -/
def syncOne (lid : Nat) (tl : Int × AerisTile) : Int × AerisTile :=
  if tl.2.id = lid then (tl.1, { tl.2 with boundAttrs := ["map", "opacity", "zIndex"] })
  else tl

/-- `syncLayerToMaster_`: bind the layer's `map`, `opacity` and `zIndex`
attributes to the master layer. -/
def syncLayerToMaster_ (s : TAState) (layer : AerisTile) : TAState :=
  { s with timeLayers_ := s.timeLayers_.map (syncOne layer.id) }

/-- The body of the "hide all the layers" loop in `transition_`: every layer
is unbound from the master (`layer.stopListening(this.masterLayer_)`), and
every layer but the new one is hidden (`layer.setOpacity(0)`). -/
def hideOne (lid : Nat) (tl : Int × AerisTile) : Int × AerisTile :=
  let l := { tl.2 with boundAttrs := ([] : List String) }
  if l.id ≠ lid then (tl.1, { l with opacity := 0 }) else (tl.1, l)

/-- The whole "hide all the layers" loop of `transition_`. -/
def hideAllBut (s : TAState) (lid : Nat) : TAState :=
  { s with timeLayers_ := s.timeLayers_.map (hideOne lid) }

/-- `transitionNotLoadedLayer_`: drop any previous one-time `'load'`
listener on the new layer and register a fresh one that will re-run the
transition. -/
def transitionNotLoadedLayer_ (s : TAState) (oldLayer : Option AerisTile)
    (newL : AerisTile) : TAState :=
  { s with pendingLayerLoad :=
      s.pendingLayerLoad.filter (fun p => p.2 ≠ newL.id)
        ++ [(oldLayer.map AerisTile.id, newL.id)] }

/-- The body of `transition_` for a new layer that exists: preload it; if
it is not loaded yet, defer (register a `'load'` listener) — otherwise
unbind every frame from the master, hide every frame but the new one, and
show the new frame (bind it to the master) exactly when the current time
deviates from the closest available time by strictly less than
`timeTolerance_`. -/
def transitionLayer (s : TAState) (now : Int) (oldLayer : Option AerisTile)
    (newL : AerisTile) : TAState :=
  let s := preloadTimeLayer_ s newL
  if !newL.loaded then
    transitionNotLoadedLayer_ s oldLayer newL
  else
    let s := hideAllBut s newL.id
    let isWithinTimeTolerance : Bool :=
      match getTimeDeviation_ s now s.currentTime_ with
      | some d => decide ((d : Int) < s.timeTolerance_)
      | none => false
    if isWithinTimeTolerance then syncLayerToMaster_ s newL
    else setLayerOpacityById s newL.id 0

/-- `transition_`.  When `newLayer` is `undefined`, the source's first step
`preloadTimeLayer_(newLayer)` dereferences it (`layer.isLoaded()`) and
throws a TypeError before any state change: `none` models that throw, which
aborts the caller with the entry state intact. -/
def transition_ (s : TAState) (now : Int) (oldLayer newLayer : Option AerisTile) :
    Option TAState :=
  match newLayer with
  | none => none
  | some newL => some (transitionLayer s now oldLayer newL)

/-- The numeric path of `goToTime` (after the `Date`/numeric check): record
the time; when no times are loaded yet, register a one-time `'load:times'`
listener that will call `goToTime` again — otherwise transition; finally
trigger `'change:time'`.  When the transition throws (no layer exists for
the requested time), the TypeError propagates before the `'change:time'`
trigger: the `.error` state carries the already-assigned current time and
no event is emitted. -/
def goToTimeNum (s : TAState) (now t : Int) : Except TAState (TAState × List TAEvent) :=
  let haveTimesBeenLoaded := !s.times_.isEmpty
  let currentLayer := getCurrentLayer s now
  let nextLayer := getLayerForTime_ s now t
  let s := { s with currentTime_ := t }
  if !haveTimesBeenLoaded then
    .ok ({ s with pendingGoToTimeOnLoad := s.pendingGoToTimeOnLoad + 1 },
         [TAEvent.changeTime t])
  else
    match transition_ s now currentLayer nextLayer with
    | some s2 => .ok (s2, [TAEvent.changeTime t])
    | none => .error s

/-- The animation state after a call that may have thrown: the `ok` state,
or the state the propagated exception left behind. -/
def resultState : Except TAState (TAState × List TAEvent) → TAState
  | .ok r => r.1
  | .error sE => sE

/-- Modelled from the spec: the argument screening of `goToTime` uses
`_.isDate` and `_.isNumeric` from `aeris/util`, which is not under `src/`.
A `Date` is unwrapped with `getTime()`, a number is numeric, and `other`
stands for every argument that is neither. -/
inductive TimeArg where
  | date (t : Int)
  | num (t : Int)
  | other
deriving DecidableEq, Repr

def TimeArg.toTimestamp : TimeArg → Option Int
  | .date t => some t
  | .num t => some t
  | .other => none

/-- `goToTime`: throws `InvalidArgumentError` (before any state change) on a
non-`Date`, non-numeric argument, and propagates the transition's TypeError
on a valid time with no matching layer; the error value carries the state at
the moment of the throw. -/
def goToTime (s : TAState) (now : Int) (time : TimeArg) :
    Except (String × TAState) (TAState × List TAEvent) :=
  match time.toTimestamp with
  | none => .error
      ("Invalid animation time: time must be a Date or a timestamp (number).", s)
  | some t =>
      match goToTimeNum s now t with
      | .ok r => .ok r
      | .error sE => .error ("TypeError: layer is undefined", sE)

/-- JavaScript array indexing with a possibly negative index:
`arr[i]` is `undefined` for `i < 0` or `i ≥ length`. -/
def jsIndex (l : List Int) (i : Int) : Option Int :=
  if i < 0 then none else l[i.toNat]?

/-- `getLayerIndex_`: `times_.indexOf(closest)` — `-1` when the closest time
is `undefined` or absent. -/
def getLayerIndex_ (s : TAState) (now : Int) : Int :=
  match getClosestTime_ s now s.currentTime_ with
  | none => -1
  | some c => if s.times_.contains c then (s.times_.indexOf c : Int) else -1

def isCurrentLayerFirst_ (s : TAState) (now : Int) : Bool :=
  getLayerIndex_ s now = 0

def isCurrentLayerLast_ (s : TAState) (now : Int) : Bool :=
  getLayerIndex_ s now = (s.times_.length : Int) - 1

def getNextTime_ (s : TAState) (now : Int) : Option Int :=
  if isCurrentLayerLast_ s now then jsIndex s.times_ 0
  else jsIndex s.times_ (getLayerIndex_ s now + 1)

def getPreviousTime_ (s : TAState) (now : Int) : Option Int :=
  let lastTime := s.times_.getLast?
  if isCurrentLayerFirst_ s now then lastTime
  else jsIndex s.times_ (getLayerIndex_ s now - 1)

/-- `next`: go to the next available time.  The source's `if (!nextTime)`
falsy test makes both `undefined` and a `0` timestamp a no-op. -/
def next (s : TAState) (now : Int) : Except TAState (TAState × List TAEvent) :=
  match getNextTime_ s now with
  | none => .ok (s, [])
  | some t => if t = 0 then .ok (s, []) else goToTimeNum s now t

/-- `previous`: go to the previous available time (same falsy test). -/
def previous (s : TAState) (now : Int) : Except TAState (TAState × List TAEvent) :=
  match getPreviousTime_ s now with
  | none => .ok (s, [])
  | some t => if t = 0 then .ok (s, []) else goToTimeNum s now t

/-- `setTimeTolerance`: store the tolerance and re-run `goToTime` at the
current time. -/
def setTimeTolerance (s : TAState) (now tolerance : Int) :
    Except TAState (TAState × List TAEvent) :=
  goToTimeNum { s with timeTolerance_ := tolerance } now s.currentTime_

/-- `destroy`: destroy the frames, clear the timeline, stop listening. -/
def destroy (s : TAState) : TAState :=
  { s with timeLayers_ := []
           times_ := []
           pendingGoToTimeOnLoad := 0
           pendingLayerLoad := [] }

/-- Mark the stored layer with the given identity as loaded (the tile layer
finished loading). -/
def markLayerLoaded (s : TAState) (lid : Nat) : TAState :=
  { s with timeLayers_ := s.timeLayers_.map fun tl =>
      if tl.2.id = lid then (tl.1, { tl.2 with loaded := true }) else tl }

def findLayerById (s : TAState) (lid : Nat) : Option AerisTile :=
  (s.timeLayers_.find? fun tl => tl.2.id = lid).map Prod.snd

/-- A layer's `'load'` event fires: the layer becomes loaded, and the
one-time listener registered by `transitionNotLoadedLayer_` (if any) runs —
it re-runs the transition only if that layer is still the current layer.
A TypeError thrown by the re-run transition propagates (`.error` with the
state at the throw). -/
def fireLayerLoad (s : TAState) (now : Int) (lid : Nat) : Except TAState TAState :=
  let sL := markLayerLoaded s lid
  match sL.pendingLayerLoad.find? (fun p => p.2 = lid) with
  | none => .ok sL
  | some p =>
      let sR := { sL with pendingLayerLoad := sL.pendingLayerLoad.filter fun q => q.2 ≠ lid }
      if (getCurrentLayer sR now).map AerisTile.id = some lid then
        match transition_ sR now (p.1.bind (findLayerById sR)) (findLayerById sR lid) with
        | some s2 => .ok s2
        | none => .error sR
      else .ok sR

/-- Run the one-time `'load:times'` listeners registered by `goToTime`
(each re-invokes `goToTime(this.getCurrentTime())`).  A throw from one
listener aborts the trigger: the `.error` carries the state at the throw
and the events emitted so far. -/
def runOnceListeners (now : Int) :
    Nat → TAState × List TAEvent → Except (TAState × List TAEvent) (TAState × List TAEvent)
  | 0, acc => .ok acc
  | n + 1, (s, evs) =>
      match goToTimeNum s now s.currentTime_ with
      | .ok r => runOnceListeners now n (r.1, evs ++ r.2)
      | .error sE => .error (sE, evs)

/-- The loader's `'load:times'` event fires (`loadAnimationLayers`'s
handler): store the time layers, refresh the current layer
(`goToTime(getCurrentTime())`), then trigger this animation's own
`'load:times'` event, which runs the one-time listeners `goToTime` had
registered while no times were loaded.  If the refresh throws a TypeError
(no stored time lies in the recorded time's tense), the handler aborts:
`'change:time'` and `'load:times'` are never triggered and the listeners
never run (`.error` with the state at the throw and no events). -/
def fireLoadTimes (s : TAState) (now : Int) (timeLayers : List (Int × AerisTile)) :
    Except (TAState × List TAEvent) (TAState × List TAEvent) :=
  let sA := setTimeLayers_ s timeLayers
  match goToTimeNum sA now sA.currentTime_ with
  | .error sE => .error (sE, [])
  | .ok r1 =>
      let n := r1.1.pendingGoToTimeOnLoad
      runOnceListeners now n
        ({ r1.1 with pendingGoToTimeOnLoad := 0 }, r1.2 ++ [TAEvent.loadTimes])

/-- The net effect of a loaded-layer transition on a frame that is shown:
unbound by the hide loop, then re-bound to the master's `map`, `opacity`
and `zIndex`. -/
def showFrame (l : AerisTile) : AerisTile :=
  { l with boundAttrs := ["map", "opacity", "zIndex"] }

/-- The net effect of a loaded-layer transition on a frame that is hidden:
unbound from the master and set to opacity `0`. -/
def hideFrame (l : AerisTile) : AerisTile :=
  { l with boundAttrs := [], opacity := 0 }

/-- The per-frame effect of a loaded-layer transition whose time deviation
is `d`: the new layer is shown exactly when `d` is strictly within the
tolerance; every other layer (and the new layer outside the tolerance) is
hidden. -/
def transitionFrameOne (newId : Nat) (tol : Int) (d : Nat) (tl : Int × AerisTile) :
    Int × AerisTile :=
  if tl.2.id = newId ∧ (d : Int) < tol then (tl.1, showFrame tl.2)
  else (tl.1, hideFrame tl.2)

/-- The conclusion of the amended claim C1: `getClosestTime_` returns a
minimizer of `|timestamp - t|` over the same-tense times, `getLayerForTime_`
looks that timestamp up in the layers hash, and (once times are loaded)
`goToTime` transitions to exactly the layer stored under that timestamp. -/
def C1Post (s : TAState) (now t : Int) : Prop :=
  ∃ c, getClosestTime_ s now t = some c ∧
    c ∈ sameTenseTimes s now t ∧
    (∀ x ∈ sameTenseTimes s now t, (t - c).natAbs ≤ (t - x).natAbs) ∧
    getLayerForTime_ s now t = s.timeLayers_.lookup c ∧
    (s.times_ ≠ [] → ∀ L, s.timeLayers_.lookup c = some L →
      goToTimeNum s now t =
        .ok (transitionLayer { s with currentTime_ := t } now (getCurrentLayer s now) L,
             [TAEvent.changeTime t]))

/-- The conclusion of the amended claim C3, for a current frame at index
`i`: `next` goes to `times_[i+1]`, or to `times_[0]` when the current frame
is last; `previous` goes to `times_[i-1]`, or to the last time when the
current frame is first — provided the target timestamp is nonzero (a `0`
timestamp fails the source's falsy check and the call is a no-op). -/
def C3Post (s : TAState) (now : Int) (i : Nat) : Prop :=
  (∀ tn, i + 1 < s.times_.length → s.times_[i+1]? = some tn → tn ≠ 0 →
     next s now = goToTimeNum s now tn ∧ (resultState (next s now)).currentTime_ = tn)
  ∧ (∀ t0, i + 1 = s.times_.length → s.times_[0]? = some t0 → t0 ≠ 0 →
     next s now = goToTimeNum s now t0 ∧ (resultState (next s now)).currentTime_ = t0)
  ∧ (∀ tLast, i = 0 → s.times_.getLast? = some tLast → tLast ≠ 0 →
     previous s now = goToTimeNum s now tLast
       ∧ (resultState (previous s now)).currentTime_ = tLast)
  ∧ (∀ tp, 0 < i → s.times_[i-1]? = some tp → tp ≠ 0 →
     previous s now = goToTimeNum s now tp
       ∧ (resultState (previous s now)).currentTime_ = tp)

/-- The state right after a layer's `'load'` event fires and Backbone drops
the one-time listener: the layer is marked loaded and the listener removed
(the listener's callback then runs on this state). -/
def afterLoadState (s2 : TAState) (lid : Nat) : TAState :=
  { markLayerLoaded s2 lid with
      pendingLayerLoad :=
        (markLayerLoaded s2 lid).pendingLayerLoad.filter fun q => q.2 ≠ lid }

/-- The conclusion of claim C4, for a transition targeting a not-yet-loaded
layer: (1) the one-time `'load'` listener on that layer is registered, any
previous one dropped; (2) no layer gets shown — every stored frame keeps
its key, identity, bound attributes and loaded flag; (3) frames other than
the target keep their whole state; (4) when the layer's `'load'` event later
fires in a state carrying that listener, the transition re-runs if and only
if the layer is still the current layer. -/
def C4Post (s : TAState) (now : Int) (oldLayer : Option AerisTile) (newL : AerisTile) :
    Prop :=
  transition_ s now oldLayer (some newL) = some (transitionLayer s now oldLayer newL)
  ∧ (transitionLayer s now oldLayer newL).pendingLayerLoad
      = s.pendingLayerLoad.filter (fun p => p.2 ≠ newL.id)
          ++ [(oldLayer.map AerisTile.id, newL.id)]
  ∧ (transitionLayer s now oldLayer newL).timeLayers_.map
        (fun tl => (tl.1, tl.2.id, tl.2.boundAttrs, tl.2.loaded))
      = s.timeLayers_.map (fun tl => (tl.1, tl.2.id, tl.2.boundAttrs, tl.2.loaded))
  ∧ (∀ tl ∈ s.timeLayers_, tl.2.id ≠ newL.id →
       (tl.1, tl.2) ∈ (transitionLayer s now oldLayer newL).timeLayers_)
  ∧ (∀ s2 : TAState,
       (markLayerLoaded s2 newL.id).pendingLayerLoad.find? (fun p => p.2 = newL.id)
           = some (oldLayer.map AerisTile.id, newL.id) →
       (((getCurrentLayer (afterLoadState s2 newL.id) now).map AerisTile.id
             ≠ some newL.id →
          fireLayerLoad s2 now newL.id = .ok (afterLoadState s2 newL.id))
        ∧ ((getCurrentLayer (afterLoadState s2 newL.id) now).map AerisTile.id
             = some newL.id →
          fireLayerLoad s2 now newL.id
            = match transition_ (afterLoadState s2 newL.id) now
                  ((oldLayer.map AerisTile.id).bind
                    (findLayerById (afterLoadState s2 newL.id)))
                  (findLayerById (afterLoadState s2 newL.id) newL.id) with
              | some s3 => .ok s3
              | none => .error (afterLoadState s2 newL.id))))

/-- The conclusion of the amended claim C5, for a `goToTime` call before
any times are loaded: the time is recorded and `'change:time'` fires but
nothing else changes (no transition), and once `'load:times'` fires the
handler stores the layers, refreshes the current layer (which completes,
emitting `'change:time'` at the recorded time), and the one registered
listener re-invokes `goToTime` exactly once more — at the recorded current
time — whether or not that re-invocation itself throws. -/
def C5Post (s : TAState) (now t : Int) (timeLayers : List (Int × AerisTile)) : Prop :=
  goToTime s now (TimeArg.num t)
      = .ok ({ s with currentTime_ := t, pendingGoToTimeOnLoad := 1 },
             [TAEvent.changeTime t])
  ∧ ∃ r1 : TAState × List TAEvent,
      goToTimeNum (setTimeLayers_
          { s with currentTime_ := t, pendingGoToTimeOnLoad := 1 } timeLayers) now t
        = .ok r1
      ∧ r1.1.currentTime_ = t
      ∧ r1.2 = [TAEvent.changeTime t]
      ∧ fireLoadTimes { s with currentTime_ := t, pendingGoToTimeOnLoad := 1 }
            now timeLayers
          = match goToTimeNum { r1.1 with pendingGoToTimeOnLoad := 0 } now t with
            | .ok r2 => .ok (r2.1, (r1.2 ++ [TAEvent.loadTimes]) ++ r2.2)
            | .error sE => .error (sE, r1.2 ++ [TAEvent.loadTimes])

/-- The conclusion of claim C6, for a transition to a loaded layer with
time deviation `d`: every other frame ends hidden (opacity `0`, unbound),
and the new frame ends bound to the master's `map`/`opacity`/`zIndex` if
and only if `d` is strictly below the tolerance — otherwise it too ends at
opacity `0` and unbound. -/
def C6Post (s : TAState) (now : Int) (oldLayer : Option AerisTile) (newL : AerisTile)
    (d : Nat) : Prop :=
  transition_ s now oldLayer (some newL) = some (transitionLayer s now oldLayer newL)
  ∧ (∀ tl ∈ s.timeLayers_, tl.2.id ≠ newL.id →
     (tl.1, hideFrame tl.2) ∈ (transitionLayer s now oldLayer newL).timeLayers_)
  ∧ (∀ tl ∈ s.timeLayers_, tl.2.id = newL.id →
     if (d : Int) < s.timeTolerance_ then
       (tl.1, showFrame tl.2) ∈ (transitionLayer s now oldLayer newL).timeLayers_
     else
       (tl.1, hideFrame tl.2) ∈ (transitionLayer s now oldLayer newL).timeLayers_)

/-! ### Concrete states for witnesses and counterexamples -/

/-- A loaded tile layer with trivial display attributes. -/
def mkTile (i : Nat) (loaded : Bool) : AerisTile :=
  { id := i, loaded := loaded, opacity := 1, boundAttrs := [] }

/-- Two loaded frames at times 5 and 20; the clock stands at 10. -/
def c1State : TAState :=
  { timeLayers_ := [(5, mkTile 1 true), (20, mkTile 2 true)]
    times_ := [5, 20]
    currentTime_ := 0
    timeTolerance_ := defaultTimeTolerance
    masterHasMap := true
    pendingGoToTimeOnLoad := 0
    pendingLayerLoad := [] }

/-- Two loaded frames at times 0 and 100, the current time on the last
frame, the clock past both. -/
def c3State : TAState :=
  { timeLayers_ := [(0, mkTile 1 true), (100, mkTile 2 true)]
    times_ := [0, 100]
    currentTime_ := 100
    timeTolerance_ := defaultTimeTolerance
    masterHasMap := true
    pendingGoToTimeOnLoad := 0
    pendingLayerLoad := [] }

/-- Two loaded frames at times 100 and 200, the current time on the first
frame, the clock past both. -/
def c3WitnessState : TAState :=
  { timeLayers_ := [(100, mkTile 1 true), (200, mkTile 2 true)]
    times_ := [100, 200]
    currentTime_ := 100
    timeTolerance_ := defaultTimeTolerance
    masterHasMap := true
    pendingGoToTimeOnLoad := 0
    pendingLayerLoad := [] }

/-- A not-yet-loaded frame. -/
def c4Layer : AerisTile := mkTile 9 false

/-- One not-yet-loaded frame at time 100. -/
def c4State : TAState :=
  { timeLayers_ := [(100, c4Layer)]
    times_ := [100]
    currentTime_ := 100
    timeTolerance_ := defaultTimeTolerance
    masterHasMap := true
    pendingGoToTimeOnLoad := 0
    pendingLayerLoad := [] }

/-- A fresh animation: nothing loaded yet. -/
def c5State : TAState := init none 0 true

/-- The layers that arrive with `'load:times'` in the C5 witness. -/
def c5TimeLayers : List (Int × AerisTile) := [(40, mkTile 3 true)]

/-- Layers arriving with `'load:times'` whose only time (200) is in the
future while the recorded current time (42) is in the past of the clock
(100): the refresh then finds no layer and throws. -/
def c5CrashLayers : List (Int × AerisTile) := [(200, mkTile 3 true)]

/-- The state the C5 crash leaves behind: layers stored, current time
still 42, and the `'load:times'` listener still registered. -/
def c5CrashErrState : TAState :=
  { timeLayers_ := [(200, mkTile 3 true)]
    times_ := [200]
    currentTime_ := 42
    timeTolerance_ := defaultTimeTolerance
    masterHasMap := true
    pendingGoToTimeOnLoad := 1
    pendingLayerLoad := [] }

/-- One loaded frame at time 100, current time 100, clock at 300. -/
def c6State : TAState :=
  { timeLayers_ := [(100, mkTile 7 true)]
    times_ := [100]
    currentTime_ := 100
    timeTolerance_ := defaultTimeTolerance
    masterHasMap := true
    pendingGoToTimeOnLoad := 0
    pendingLayerLoad := [] }

end TileAnimation

/-! ## `AnimationSync` -/

/-- Modelled from the spec: the `AnimationSync` implementation is not under
`src/` (only the example page and the glossary entry are).  Per the spec it
is a "coordinator that keeps multiple tile animations (e.g., radar,
satellite) aligned to one shared timeline": it holds the member animations
and one shared current time. -/
structure AnimationSyncState where
  animations : List TAState
  currentTime_ : Int

namespace AnimationSync

/-- Modelled from the spec: one animation step — the sync moves its shared
current time to `t` and broadcasts `goToTime(t)` to every member animation. -/
def goToTime (s : AnimationSyncState) (now t : Int) : AnimationSyncState :=
  { animations := s.animations.map fun a =>
      TileAnimation.resultState (TileAnimation.goToTimeNum a now t)
    currentTime_ := t }

end AnimationSync

/-! ## `GeoJsonFeatureCollection`
(`src/src/api/collections/geojsonfeaturecollection.js`) -/

/-- A GeoJSON object with a `features` array (feature data is opaque JSON). -/
structure GeoJsonObject where
  type : String
  features : List JVal
deriving DecidableEq

/-- The `{type, features}` object returned by `toGeoJson`. -/
structure GeoJsonOut where
  type : String
  features : List JVal
deriving DecidableEq

namespace GeoJsonFeatureCollection

/-- Modelled from the spec: `AerisApiCollection.prototype.parse` is not
under `src/`; it turns the raw response objects into the collection's
models, attribute-preserving — modelled as the identity on the feature
data. -/
def aerisApiCollectionParse (objects : List JVal) : List JVal := objects

/-- `parse`: read the `features` array out of the GeoJSON object and pass it
to the parent collection's `parse`. -/
def parse (geoJson : GeoJsonObject) : List JVal :=
  aerisApiCollectionParse geoJson.features

/-- The constructor (with a truthy `geoJson` argument): the collection's
models are `parse(geoJson)`. -/
def init (geoJson : GeoJsonObject) : List JVal := parse geoJson

/-- Modelled from the spec: Backbone's `Collection#toJSON` (not under
`src/`) maps every model back to its attributes — the identity on the
feature data parsed in. -/
def toJSON (models : List JVal) : List JVal := models

/-- `toGeoJson`: a `FeatureCollection` whose `features` field is the JSON
serialization of the models. -/
def toGeoJson (models : List JVal) : GeoJsonOut :=
  { type := "FeatureCollection", features := toJSON models }

end GeoJsonFeatureCollection

/-! ### The serializer unit-test vectors (`src/tests/spec/aeris/aerisapi.js`) -/

/-- `{'foo': 'bar', 'baz': 42, 'quux': 'All your base are belong to us'}` -/
def tvFlat : JObj :=
  .cons "foo" (.str "bar") (.cons "baz" (.num 42)
    (.cons "quux" (.str "All your base are belong to us") .nil))

/-- `{'string': 'foo', 'null': null, 'undefined': undefined}` -/
def tvNulls : JObj :=
  .cons "string" (.str "foo") (.cons "null" .null (.cons "undefined" .undef .nil))

/-- `{'someName': [1, 2, 3], 'regularThing': 'blah'}` -/
def tvArrayValue : JObj :=
  .cons "someName" (.arr (.cons (.num 1) (.cons (.num 2) (.cons (.num 3) .nil))))
    (.cons "regularThing" (.str "blah") .nil)

/-- `{'foo': ['a', 'b', 'c']}` -/
def tvArrayStrings : JObj :=
  .cons "foo" (.arr (.cons (.str "a") (.cons (.str "b") (.cons (.str "c") .nil)))) .nil

/-- `{'foo': ['baz', 42, 'All your base are belong to us']}` -/
def tvArrayEncode : JObj :=
  .cons "foo" (.arr (.cons (.str "baz") (.cons (.num 42)
    (.cons (.str "All your base are belong to us") .nil)))) .nil

/-- `{'foo': {'bar': 'baz', 'beep': 42, 'quux': 'All your base are belong to us'}}` -/
def tvNested : JObj :=
  .cons "foo" (.obj (.cons "bar" (.str "baz") (.cons "beep" (.num 42)
    (.cons "quux" (.str "All your base are belong to us") .nil)))) .nil

/-! ## Helper lemmas -/

/-- The accumulator invariant of `findClosestFrom`: a `some` result is the
accumulator or a list element, it is at least as close to the target as
every list element, and at least as close as the accumulator. -/
theorem findClosestFrom_spec (target : Int) (l : List Int) :
    ∀ (best : Option Int) (c : Int),
      findClosestFrom target best l = some c →
      (best = some c ∨ c ∈ l) ∧
      (∀ x ∈ l, (target - c).natAbs ≤ (target - x).natAbs) ∧
      (∀ b, best = some b → (target - c).natAbs ≤ (target - b).natAbs) := by
  induction l with
  | nil =>
    intro best c h
    cases best with
    | none => exact absurd h (by simp [findClosestFrom])
    | some b =>
      have hb : b = c := by simpa [findClosestFrom] using h
      subst hb
      exact ⟨Or.inl rfl, by simp, fun b' hb' => by rw [← Option.some_inj.mp hb']⟩
  | cons n rest ih =>
    intro best c h
    cases best with
    | none =>
      obtain ⟨h1, h2, h3⟩ := ih (some n) c h
      refine ⟨Or.inr ?_, ?_, ?_⟩
      · rcases h1 with h1 | h1
        · exact (Option.some_inj.mp h1) ▸ List.mem_cons_self n rest
        · exact List.mem_cons_of_mem _ h1
      · intro x hx
        rcases List.mem_cons.mp hx with rfl | hx
        · exact h3 x rfl
        · exact h2 x hx
      · intro b hb
        exact Option.noConfusion hb
    | some c0 =>
      by_cases hlt : (target - n).natAbs < (target - c0).natAbs
      · have h' : findClosestFrom target (some n) rest = some c := by
          simpa [findClosestFrom, hlt] using h
        obtain ⟨h1, h2, h3⟩ := ih (some n) c h'
        have hcn : (target - c).natAbs ≤ (target - n).natAbs := h3 n rfl
        refine ⟨Or.inr ?_, ?_, ?_⟩
        · rcases h1 with h1 | h1
          · exact (Option.some_inj.mp h1) ▸ List.mem_cons_self n rest
          · exact List.mem_cons_of_mem _ h1
        · intro x hx
          rcases List.mem_cons.mp hx with rfl | hx
          · exact hcn
          · exact h2 x hx
        · intro b hb
          rw [← Option.some_inj.mp hb]
          exact le_trans hcn (le_of_lt hlt)
      · have h' : findClosestFrom target (some c0) rest = some c := by
          simpa [findClosestFrom, hlt] using h
        obtain ⟨h1, h2, h3⟩ := ih (some c0) c h'
        have hcc0 : (target - c).natAbs ≤ (target - c0).natAbs := h3 c0 rfl
        refine ⟨?_, ?_, ?_⟩
        · rcases h1 with h1 | h1
          · exact Or.inl h1
          · exact Or.inr (List.mem_cons_of_mem _ h1)
        · intro x hx
          rcases List.mem_cons.mp hx with rfl | hx
          · exact le_trans hcc0 (Nat.le_of_not_lt hlt)
          · exact h2 x hx
        · intro b hb
          rw [← Option.some_inj.mp hb]
          exact hcc0

theorem findClosestFrom_isSome (target : Int) (l : List Int) :
    ∀ c0 : Int, (findClosestFrom target (some c0) l).isSome := by
  induction l with
  | nil => intro c0; rfl
  | cons n rest ih =>
    intro c0
    dsimp only [findClosestFrom]
    split
    · exact ih n
    · exact ih c0

/-- `findClosest` finds something on a non-empty list. -/
theorem findClosest_isSome (target : Int) (l : List Int) (h : l ≠ []) :
    (findClosest target l).isSome := by
  cases l with
  | nil => exact absurd rfl h
  | cons n rest => exact findClosestFrom_isSome target rest n

/-- A `some` result of `findClosest` is a list element at minimal distance
from the target. -/
theorem findClosest_spec (target : Int) (l : List Int) (c : Int)
    (h : findClosest target l = some c) :
    c ∈ l ∧ ∀ x ∈ l, (target - c).natAbs ≤ (target - x).natAbs := by
  obtain ⟨h1, h2, _⟩ := findClosestFrom_spec target l none c h
  rcases h1 with h1 | h1
  · exact Option.noConfusion h1
  · exact ⟨h1, h2⟩

namespace TileAnimation

/-- Nothing a layer transition goes through changes the timeline, the
current time, the tolerance, or the pending `'load:times'` listeners: every
branch only rewrites `timeLayers_` or `pendingLayerLoad`. -/
theorem transitionLayer_preserves (s : TAState) (now : Int) (o : Option AerisTile)
    (l : AerisTile) :
    (transitionLayer s now o l).times_ = s.times_ ∧
    (transitionLayer s now o l).currentTime_ = s.currentTime_ ∧
    (transitionLayer s now o l).pendingGoToTimeOnLoad = s.pendingGoToTimeOnLoad ∧
    (transitionLayer s now o l).timeTolerance_ = s.timeTolerance_ := by
  dsimp only [transitionLayer, preloadTimeLayer_, transitionNotLoadedLayer_,
    syncLayerToMaster_, setLayerOpacityById, hideAllBut]
  repeat' split
  all_goals exact ⟨rfl, rfl, rfl, rfl⟩

theorem goToTimeNum_currentTime (s : TAState) (now t : Int) :
    (resultState (goToTimeNum s now t)).currentTime_ = t := by
  dsimp only [goToTimeNum]
  split
  · rfl
  · cases hL : getLayerForTime_ s now t with
    | none => rfl
    | some L =>
      show (transitionLayer _ now _ L).currentTime_ = t
      rw [(transitionLayer_preserves _ now _ _).2.1]

theorem goToTimeNum_times (s : TAState) (now t : Int) :
    (resultState (goToTimeNum s now t)).times_ = s.times_ := by
  dsimp only [goToTimeNum]
  split
  · rfl
  · cases hL : getLayerForTime_ s now t with
    | none => rfl
    | some L =>
      show (transitionLayer _ now _ L).times_ = s.times_
      rw [(transitionLayer_preserves _ now _ _).1]

/-- When times have been loaded and a layer exists for the requested time,
`goToTimeNum` records the time, transitions from the current layer to that
layer, and triggers `'change:time'`. -/
theorem goToTimeNum_loaded_some (s : TAState) (now t : Int) (h : s.times_ ≠ [])
    (L : AerisTile) (hL : getLayerForTime_ s now t = some L) :
    goToTimeNum s now t =
      .ok (transitionLayer { s with currentTime_ := t } now (getCurrentLayer s now) L,
           [TAEvent.changeTime t]) := by
  dsimp only [goToTimeNum]
  rw [if_neg (by simp [List.isEmpty_iff, h]), hL]
  rfl

/-- When times have been loaded but no layer exists for the requested time,
the transition throws: `goToTimeNum` aborts with the current time already
assigned and no `'change:time'` event. -/
theorem goToTimeNum_loaded_none (s : TAState) (now t : Int) (h : s.times_ ≠ [])
    (hL : getLayerForTime_ s now t = none) :
    goToTimeNum s now t = .error { s with currentTime_ := t } := by
  dsimp only [goToTimeNum]
  rw [if_neg (by simp [List.isEmpty_iff, h]), hL]
  rfl

/-- When no times are loaded, `goToTimeNum` records the time, registers one
more one-time `'load:times'` listener, and does not transition. -/
theorem goToTimeNum_unloaded (s : TAState) (now t : Int) (h : s.times_ = []) :
    goToTimeNum s now t =
      .ok ({ s with currentTime_ := t,
                    pendingGoToTimeOnLoad := s.pendingGoToTimeOnLoad + 1 },
           [TAEvent.changeTime t]) := by
  dsimp only [goToTimeNum]
  rw [if_pos]
  simp [h]

/-- Unbinding-then-syncing a frame is `transitionFrameOne` when the
deviation is within the tolerance. -/
theorem sync_hide_comp (newId : Nat) (tol : Int) (d : Nat) (hd : (d : Int) < tol)
    (tl : Int × AerisTile) :
    syncOne newId (hideOne newId tl) = transitionFrameOne newId tol d tl := by
  obtain ⟨t, lid, lld, lop, lba⟩ := tl
  by_cases hid : lid = newId <;>
    simp [syncOne, hideOne, transitionFrameOne, showFrame, hideFrame, hid, hd]

/-- Unbinding-then-zeroing a frame is `transitionFrameOne` when the
deviation is outside the tolerance. -/
theorem setop_hide_comp (newId : Nat) (tol : Int) (d : Nat) (hd : ¬ (d : Int) < tol)
    (tl : Int × AerisTile) :
    setOpacityOne newId 0 (hideOne newId tl) = transitionFrameOne newId tol d tl := by
  obtain ⟨t, lid, lld, lop, lba⟩ := tl
  by_cases hid : lid = newId <;>
    simp [setOpacityOne, hideOne, transitionFrameOne, hideFrame, hid, hd]

/-- Characterization of a transition to a loaded layer: every frame goes
through `transitionFrameOne`, and nothing else changes. -/
theorem transition_loaded_eq (s : TAState) (now : Int) (o : Option AerisTile)
    (newL : AerisTile) (d : Nat) (h1 : newL.loaded = true)
    (h2 : getTimeDeviation_ s now s.currentTime_ = some d) :
    transitionLayer s now o newL =
      { s with timeLayers_ :=
          s.timeLayers_.map (transitionFrameOne newL.id s.timeTolerance_ d) } := by
  have hpre : preloadTimeLayer_ s newL = s := by
    unfold preloadTimeLayer_; rw [h1]; simp
  have h2' : getTimeDeviation_ (hideAllBut s newL.id) now
      (hideAllBut s newL.id).currentTime_ = some d := h2
  unfold transitionLayer
  rw [hpre, h1]
  simp only [Bool.not_true, Bool.false_eq_true, if_false]
  rw [h2']
  have htol : (hideAllBut s newL.id).timeTolerance_ = s.timeTolerance_ := rfl
  by_cases hd : (d : Int) < s.timeTolerance_
  · rw [if_pos (by rw [htol]; exact decide_eq_true hd)]
    simp only [syncLayerToMaster_, hideAllBut]
    congr 1
    rw [List.map_map]
    exact List.map_congr_left fun tl _ => sync_hide_comp newL.id s.timeTolerance_ d hd tl
  · rw [if_neg (by rw [htol]; simp [hd])]
    simp only [setLayerOpacityById, hideAllBut]
    congr 1
    rw [List.map_map]
    exact List.map_congr_left fun tl _ => setop_hide_comp newL.id s.timeTolerance_ d hd tl

/-- Characterization of a transition to a not-yet-loaded layer: only the
preload and the one-time `'load'` listener happen. -/
theorem transition_notLoaded_eq (s : TAState) (now : Int) (o : Option AerisTile)
    (newL : AerisTile) (h1 : newL.loaded = false) :
    transitionLayer s now o newL =
      { preloadTimeLayer_ s newL with
          pendingLayerLoad :=
            s.pendingLayerLoad.filter (fun p => p.2 ≠ newL.id)
              ++ [(o.map AerisTile.id, newL.id)] } := by
  have hpend : (preloadTimeLayer_ s newL).pendingLayerLoad = s.pendingLayerLoad := by
    unfold preloadTimeLayer_ setLayerOpacityById
    repeat' split
    all_goals rfl
  unfold transitionLayer
  rw [h1]
  simp only [Bool.not_false, if_true]
  unfold transitionNotLoadedLayer_
  rw [hpend]

/-- `preloadTimeLayer_` can only touch a layer's opacity: the key,
identity, bound attributes and loaded flag of every frame survive. -/
theorem preload_timeLayers_proj (s : TAState) (layer : AerisTile) :
    (preloadTimeLayer_ s layer).timeLayers_.map
        (fun tl => (tl.1, tl.2.id, tl.2.boundAttrs, tl.2.loaded))
      = s.timeLayers_.map (fun tl => (tl.1, tl.2.id, tl.2.boundAttrs, tl.2.loaded)) := by
  unfold preloadTimeLayer_ setLayerOpacityById
  split
  · rfl
  split
  · dsimp only
    rw [List.map_map]
    refine List.map_congr_left fun tl _ => ?_
    obtain ⟨t, lid, lld, lop, lba⟩ := tl
    by_cases hid : lid = layer.id <;> simp [setOpacityOne, hid]
  · rfl

/-- Running exactly one pending `'load:times'` listener is one
`goToTime(getCurrentTime())` call, whose throw (if any) propagates. -/
theorem runOnceListeners_one (now : Int) (s : TAState) (evs : List TAEvent) :
    runOnceListeners now 1 (s, evs) =
      match goToTimeNum s now s.currentTime_ with
      | .ok r => .ok (r.1, evs ++ r.2)
      | .error sE => .error (sE, evs) := by
  show runOnceListeners now (0 + 1) (s, evs) = _
  rw [runOnceListeners]
  cases hg : goToTimeNum s now s.currentTime_ with
  | ok r => rfl
  | error sE => rfl

/-- A key of an association list can always be looked up. -/
theorem lookup_isSome_of_mem_keys (l : List (Int × AerisTile)) (c : Int)
    (h : c ∈ l.map Prod.fst) : (l.lookup c).isSome := by
  induction l with
  | nil => simp at h
  | cons hd tl ih =>
    simp only [List.map_cons, List.mem_cons] at h
    by_cases hc : c == hd.1
    · simp [List.lookup, hc]
    · rcases h with h | h
      · exact absurd (by simp [h]) hc
      · simp [List.lookup, hc, ih h]

/-- `preloadTimeLayer_` leaves every frame with a different identity
untouched. -/
theorem preload_mem_of_ne (s : TAState) (layer : AerisTile) (tl : Int × AerisTile)
    (htl : tl ∈ s.timeLayers_) (hid : tl.2.id ≠ layer.id) :
    tl ∈ (preloadTimeLayer_ s layer).timeLayers_ := by
  unfold preloadTimeLayer_ setLayerOpacityById
  split
  · exact htl
  split
  · dsimp only
    have heq : setOpacityOne layer.id 0 tl = tl := by
      unfold setOpacityOne; rw [if_neg hid]
    exact heq ▸ List.mem_map_of_mem _ htl
  · exact htl

end TileAnimation

/-! ## The claims -/

open TileAnimation

/-- C2: after time layers are set (on the `'load:times'` event), the
timeline returned by `getTimes()` contains exactly the integer timestamp
keys of the time-layers hash, sorted ascending, and `next`, `previous`,
`goToTime` and `setTimeTolerance` all preserve the timeline; `destroy()`
clears it. -/
theorem claim_C2_ordered_timeline (s : TAState) (timeLayers : List (Int × AerisTile))
    (now t tolerance : Int) :
    List.Sorted (· ≤ ·) (setTimeLayers_ s timeLayers).times_
    ∧ (setTimeLayers_ s timeLayers).times_.Perm (timeLayers.map Prod.fst)
    ∧ getTimes (setTimeLayers_ s timeLayers) = (setTimeLayers_ s timeLayers).times_
    ∧ (resultState (goToTimeNum s now t)).times_ = s.times_
    ∧ (resultState (next s now)).times_ = s.times_
    ∧ (resultState (previous s now)).times_ = s.times_
    ∧ (resultState (setTimeTolerance s now tolerance)).times_ = s.times_
    ∧ (destroy s).times_ = [] := by
  refine ⟨List.sorted_insertionSort _ _, List.perm_insertionSort _ _, rfl,
    goToTimeNum_times s now t, ?_, ?_, goToTimeNum_times _ now _, rfl⟩
  · unfold next
    split
    · rfl
    · split
      · rfl
      · exact goToTimeNum_times _ _ _
  · unfold previous
    split
    · rfl
    · split
      · rfl
      · exact goToTimeNum_times _ _ _

/-- C7: `goToTime` on an argument that is neither a `Date` nor numeric
throws `InvalidArgumentError` before any state change: the state carried at
the throw is exactly the pre-call state (current time untouched, no
transition) and no `'change:time'` event is triggered. -/
theorem claim_C7_invalid_time_throws (s : TAState) (now : Int) :
    goToTime s now TimeArg.other =
      .error ("Invalid animation time: time must be a Date or a timestamp (number).", s) :=
  rfl

/-- C8: after an `AnimationSync` step to a shared time, every synchronized
animation holds the same shared current time, and each one's current
(displayed) layer is its layer for that shared time. -/
theorem claim_C8_sync_shared_time (sync : AnimationSyncState) (now t : Int) :
    (AnimationSync.goToTime sync now t).currentTime_ = t ∧
    ∀ a ∈ (AnimationSync.goToTime sync now t).animations,
      a.currentTime_ = t ∧ getCurrentLayer a now = getLayerForTime_ a now t := by
  refine ⟨rfl, ?_⟩
  intro a ha
  simp only [AnimationSync.goToTime, List.mem_map] at ha
  obtain ⟨a0, _, rfl⟩ := ha
  refine ⟨goToTimeNum_currentTime a0 now t, ?_⟩
  unfold getCurrentLayer
  rw [goToTimeNum_currentTime]

/-- C9: `AerisAPI.serializeToURI` reproduces the unit-test vectors of
`src/tests/spec/aeris/aerisapi.js`: flat key/value pairs joined by `&` with
spaces as `+`, `null`/`undefined` as empty strings, arrays as repeated
`key[]=` pairs, and nested objects in bracket notation. -/
theorem claim_C9_serializeToURI_vectors :
    serializeToURI tvFlat = "foo=bar&baz=42&quux=All+your+base+are+belong+to+us"
    ∧ serializeToURI tvNulls = "string=foo&null=&undefined="
    ∧ serializeToURI tvArrayValue
        = "someName%5B%5D=1&someName%5B%5D=2&someName%5B%5D=3&regularThing=blah"
    ∧ serializeToURI tvArrayStrings = "foo%5B%5D=a&foo%5B%5D=b&foo%5B%5D=c"
    ∧ serializeToURI tvArrayEncode
        = "foo%5B%5D=baz&foo%5B%5D=42&foo%5B%5D=All+your+base+are+belong+to+us"
    ∧ serializeToURI tvNested
        = "foo%5Bbar%5D=baz&foo%5Bbeep%5D=42&foo%5Bquux%5D=All+your+base+are+belong+to+us" := by
  decide

/-- C1 counterexample: with the clock at 10, target time 12 and loaded
timeline `[5, 20]`, `getClosestTime_` returns 20 even though 5 is strictly
closer to 12 — the tense filter discards past times for a future target, so
the result is not the global minimizer of `|timestamp - t|`. -/
theorem claim_C1_counterexample :
    getClosestTime_ c1State 10 12 = some 20
    ∧ 5 ∈ c1State.times_
    ∧ ((12 : Int) - 5).natAbs < ((12 : Int) - 20).natAbs := by
  decide

/-- C1 (amended): whenever some loaded time is in the same tense
(past/future relative to the clock) as `t`, `getClosestTime_(t)` returns
the element minimizing `|timestamp - t|` among those same-tense times,
`getLayerForTime_(t)` returns the layer stored under that timestamp, and —
once times are loaded — `goToTime(t)` transitions to exactly that layer. -/
theorem claim_C1_amended (s : TAState) (now t : Int)
    (h : sameTenseTimes s now t ≠ []) : C1Post s now t := by
  have hs : (getClosestTime_ s now t).isSome :=
    findClosest_isSome t (sameTenseTimes s now t) h
  obtain ⟨c, hc⟩ := Option.isSome_iff_exists.mp hs
  have hc' : findClosest t (sameTenseTimes s now t) = some c := hc
  obtain ⟨hmem, hmin⟩ := findClosest_spec t (sameTenseTimes s now t) c hc'
  have hlayer : getLayerForTime_ s now t = s.timeLayers_.lookup c := by
    unfold getLayerForTime_
    rw [hc]
    rfl
  refine ⟨c, hc, hmem, hmin, hlayer, ?_⟩
  intro hne L hLk
  exact goToTimeNum_loaded_some s now t hne L (by rw [hlayer, hLk])

/-- C1 amended witness: the amended statement holds at the concrete state,
with its hypothesis discharged by evaluation. -/
theorem claim_C1_amended_witness :
    sameTenseTimes c1State 10 12 ≠ [] ∧ C1Post c1State 10 12 :=
  ⟨by decide, claim_C1_amended c1State 10 12 (by decide)⟩

/-- C3 counterexample: timeline `[0, 100]`, current layer the last frame,
clock past both times — the claim says `next()` loops back to the earliest
timestamp (0), but the source's `if (!nextTime)` falsy check treats the 0
timestamp as missing and `next()` does nothing. -/
theorem claim_C3_counterexample :
    isCurrentLayerLast_ c3State 200 = true
    ∧ c3State.times_ = [0, 100]
    ∧ next c3State 200 = .ok (c3State, []) := by
  decide

/-- C3 (amended): when the current frame (the timeline index of the nearest
same-tense time to the current time) is at index `i`, `next()` goes to
`times_[i+1]`, or loops to `times_[0]` from the last frame, and
`previous()` goes to `times_[i-1]`, or loops to the latest time from the
first frame — provided the target timestamp is nonzero (a 0 timestamp fails
the falsy check and the call is a no-op). -/
theorem claim_C3_amended (s : TAState) (now : Int) (i : Nat)
    (h1 : getLayerIndex_ s now = (i : Int)) :
    C3Post s now i := by
  refine ⟨?_, ?_, ?_, ?_⟩
  · intro tn hlt hget hne
    have hlast : isCurrentLayerLast_ s now = false := by
      simp only [isCurrentLayerLast_, h1, decide_eq_false_iff_not]
      omega
    have hnext : getNextTime_ s now = some tn := by
      unfold getNextTime_
      rw [hlast]
      simp only [Bool.false_eq_true, if_false]
      unfold jsIndex
      rw [h1, if_neg (by omega)]
      have htn : ((i : Int) + 1).toNat = i + 1 := by omega
      rw [htn, hget]
    have heq : next s now = goToTimeNum s now tn := by
      unfold next
      rw [hnext]
      simp [hne]
    exact ⟨heq, heq ▸ goToTimeNum_currentTime s now tn⟩
  · intro t0 hlen hget hne
    have hlast : isCurrentLayerLast_ s now = true := by
      simp only [isCurrentLayerLast_, h1, decide_eq_true_eq]
      omega
    have hnext : getNextTime_ s now = some t0 := by
      unfold getNextTime_
      rw [hlast]
      simp only [if_true]
      unfold jsIndex
      rw [if_neg (by omega)]
      simpa using hget
    have heq : next s now = goToTimeNum s now t0 := by
      unfold next
      rw [hnext]
      simp [hne]
    exact ⟨heq, heq ▸ goToTimeNum_currentTime s now t0⟩
  · intro tLast h0 hget hne
    have hfirst : isCurrentLayerFirst_ s now = true := by
      simp only [isCurrentLayerFirst_, h1, h0, decide_eq_true_eq]
      rfl
    have hprev : getPreviousTime_ s now = some tLast := by
      unfold getPreviousTime_
      rw [hfirst]
      simpa using hget
    have heq : previous s now = goToTimeNum s now tLast := by
      unfold previous
      rw [hprev]
      simp [hne]
    exact ⟨heq, heq ▸ goToTimeNum_currentTime s now tLast⟩
  · intro tp hpos hget hne
    have hfirst : isCurrentLayerFirst_ s now = false := by
      simp only [isCurrentLayerFirst_, h1, decide_eq_false_iff_not]
      omega
    have hprev : getPreviousTime_ s now = some tp := by
      unfold getPreviousTime_
      rw [hfirst]
      simp only [Bool.false_eq_true, if_false]
      unfold jsIndex
      rw [h1, if_neg (by omega)]
      have htp : ((i : Int) - 1).toNat = i - 1 := by omega
      rw [htp, hget]
    have heq : previous s now = goToTimeNum s now tp := by
      unfold previous
      rw [hprev]
      simp [hne]
    exact ⟨heq, heq ▸ goToTimeNum_currentTime s now tp⟩

/-- C3 amended witness: the amended statement holds at a concrete state,
with its hypothesis discharged by evaluation. -/
theorem claim_C3_amended_witness :
    getLayerIndex_ c3WitnessState 300 = ((0 : Nat) : Int)
    ∧ C3Post c3WitnessState 300 0 :=
  ⟨by decide, claim_C3_amended c3WitnessState 300 0 (by decide)⟩

/-- C4: a transition to a not-yet-loaded layer does not display the layer:
no frame's bound attributes change and other frames are untouched; instead a
one-time `'load'` listener (replacing any previous one on that layer) is
registered, and the deferred transition runs, once the layer has loaded, if
and only if the layer is still the current layer. -/
theorem claim_C4_deferred_transition (s : TAState) (now : Int)
    (oldLayer : Option AerisTile) (newL : AerisTile)
    (h1 : newL.loaded = false) :
    C4Post s now oldLayer newL := by
  have htr := transition_notLoaded_eq s now oldLayer newL h1
  refine ⟨rfl, ?_, ?_, ?_, ?_⟩
  · rw [htr]
  · rw [htr]
    exact preload_timeLayers_proj s newL
  · intro tl htl hid
    rw [htr]
    exact preload_mem_of_ne s newL tl htl hid
  · intro s2 hfind
    constructor
    · intro hcur
      simp only [afterLoadState] at hcur ⊢
      unfold fireLayerLoad
      dsimp only
      rw [hfind]
      dsimp only
      rw [if_neg hcur]
    · intro hcur
      simp only [afterLoadState] at hcur ⊢
      unfold fireLayerLoad
      dsimp only
      rw [hfind]
      dsimp only
      rw [if_pos hcur]

/-- C4 witness: the deferred-transition postcondition at a concrete
not-yet-loaded layer. -/
theorem claim_C4_deferred_transition_witness :
    c4Layer.loaded = false ∧ C4Post c4State 50 none c4Layer :=
  ⟨rfl, claim_C4_deferred_transition c4State 50 none c4Layer rfl⟩

/-- C5 counterexample: the recorded current time 42 is in the past of the
clock (100), but the arriving timeline `[200]` lies entirely in the future:
the `'load:times'` handler's refresh finds no layer (tense filter), throws a
TypeError, and aborts — no `'change:time'` or `'load:times'` event fires and
the registered listener never re-invokes `goToTime` (it stays pending),
contradicting the claimed exactly-once re-invocation. -/
theorem claim_C5_counterexample :
    goToTime c5State 100 (TimeArg.num 42)
        = .ok ({ c5State with currentTime_ := 42, pendingGoToTimeOnLoad := 1 },
               [TAEvent.changeTime 42])
    ∧ fireLoadTimes { c5State with currentTime_ := 42, pendingGoToTimeOnLoad := 1 }
          100 c5CrashLayers
        = .error (c5CrashErrState, [])
    ∧ c5CrashErrState.pendingGoToTimeOnLoad = 1 := by
  decide

/-- C5 (amended): a `goToTime` with a valid time before any times are
loaded records the time as current, triggers `'change:time'`, performs no
transition, and registers a single `'load:times'` listener; when
`'load:times'` later fires — provided some arriving time lies on the same
side of the clock as the recorded time — the handler stores the layers,
refreshes the current layer, and the listener re-invokes `goToTime` exactly
once, at the recorded current time.  (When no arriving time shares that
tense, the refresh throws a TypeError instead and the re-invocation never
happens.) -/
theorem claim_C5_goToTime_before_load (s : TAState) (now t : Int)
    (timeLayers : List (Int × AerisTile))
    (h1 : s.times_ = []) (h2 : s.pendingGoToTimeOnLoad = 0)
    (h4 : sameTenseTimes (setTimeLayers_
        { s with currentTime_ := t, pendingGoToTimeOnLoad := 1 } timeLayers) now t
      ≠ []) :
    C5Post s now t timeLayers := by
  unfold C5Post
  set sP : TAState := { s with currentTime_ := t, pendingGoToTimeOnLoad := 1 }
    with hsPdef
  set sA : TAState := setTimeLayers_ sP timeLayers with hsAdef
  have hgo : goToTimeNum s now t = .ok (sP, [TAEvent.changeTime t]) := by
    rw [goToTimeNum_unloaded s now t h1]
    simp [hsPdef, h2]
  have hAtimes : sA.times_ ≠ [] := by
    intro hcon
    exact h4 (by simp [sameTenseTimes, hcon])
  have hcsome : (getClosestTime_ sA now t).isSome := findClosest_isSome t _ h4
  obtain ⟨c, hc⟩ := Option.isSome_iff_exists.mp hcsome
  have hcmem : c ∈ sameTenseTimes sA now t := (findClosest_spec t _ c hc).1
  have hckeys : c ∈ timeLayers.map Prod.fst := by
    have hmemA : c ∈ sA.times_ := List.mem_of_mem_filter hcmem
    rw [hsAdef] at hmemA
    exact (List.perm_insertionSort (· ≤ ·) (timeLayers.map Prod.fst)).mem_iff.mp hmemA
  obtain ⟨L, hLk⟩ := Option.isSome_iff_exists.mp
    (lookup_isSome_of_mem_keys timeLayers c hckeys)
  have hlayer : getLayerForTime_ sA now t = some L := by
    unfold getLayerForTime_
    rw [hc]
    rw [hsAdef]
    exact hLk
  have hr1 := goToTimeNum_loaded_some sA now t hAtimes L hlayer
  refine ⟨?_, _, hr1, ?_, rfl, ?_⟩
  · simp only [goToTime, TimeArg.toTimestamp, hgo]
  · rw [(transitionLayer_preserves _ now _ _).2.1]
  · have hpend1 : (transitionLayer { sA with currentTime_ := t } now
        (getCurrentLayer sA now) L).pendingGoToTimeOnLoad = 1 := by
      rw [(transitionLayer_preserves _ now _ _).2.2.1]
      simp [hsAdef, hsPdef, setTimeLayers_]
    have hct2 : ({ transitionLayer { sA with currentTime_ := t } now
        (getCurrentLayer sA now) L with pendingGoToTimeOnLoad := 0 } : TAState).currentTime_
        = t := by
      show (transitionLayer { sA with currentTime_ := t } now
        (getCurrentLayer sA now) L).currentTime_ = t
      rw [(transitionLayer_preserves _ now _ _).2.1]
    unfold fireLoadTimes
    dsimp only
    rw [show sA.currentTime_ = t from by simp [hsAdef, hsPdef, setTimeLayers_]]
    rw [hr1]
    dsimp only
    rw [hpend1, runOnceListeners_one, hct2]

/-- C5 witness: the amended pre-load `goToTime` behaviour at a fresh
animation, with a same-tense arrival. -/
theorem claim_C5_goToTime_before_load_witness :
    c5State.times_ = [] ∧ c5State.pendingGoToTimeOnLoad = 0
    ∧ sameTenseTimes (setTimeLayers_
        { c5State with currentTime_ := 42, pendingGoToTimeOnLoad := 1 } c5TimeLayers)
        100 42 ≠ []
    ∧ C5Post c5State 100 42 c5TimeLayers :=
  ⟨rfl, rfl, by decide,
    claim_C5_goToTime_before_load c5State 100 42 c5TimeLayers rfl rfl (by decide)⟩

/-- C6: after a transition to a loaded layer, every other frame is hidden
(opacity 0, unbound from the master), and the new frame is bound to the
master's `map`, `opacity` and `zIndex` attributes if and only if the
deviation between the current time and the closest available time is
strictly below `timeTolerance_` (whose constructor default is 2 hours =
7200000 ms); otherwise the new frame too ends hidden. -/
theorem claim_C6_transition_postcondition (s : TAState) (now : Int)
    (oldLayer : Option AerisTile) (newL : AerisTile) (d : Nat)
    (h1 : newL.loaded = true)
    (h2 : getTimeDeviation_ s now s.currentTime_ = some d) :
    C6Post s now oldLayer newL d
    ∧ ∀ (t0 : Int) (m : Bool), (init none t0 m).timeTolerance_ = 7200000 := by
  have htr := transition_loaded_eq s now oldLayer newL d h1 h2
  refine ⟨⟨rfl, ?_, ?_⟩, fun t0 m => rfl⟩
  · intro tl htl hid
    rw [htr]
    have hone : transitionFrameOne newL.id s.timeTolerance_ d tl
        = (tl.1, hideFrame tl.2) := by
      unfold transitionFrameOne
      rw [if_neg]
      simp [hid]
    exact hone ▸ List.mem_map_of_mem _ htl
  · intro tl htl hid
    by_cases hd : (d : Int) < s.timeTolerance_
    · rw [if_pos hd, htr]
      have hone : transitionFrameOne newL.id s.timeTolerance_ d tl
          = (tl.1, showFrame tl.2) := by
        unfold transitionFrameOne
        rw [if_pos ⟨hid, hd⟩]
      exact hone ▸ List.mem_map_of_mem _ htl
    · rw [if_neg hd, htr]
      have hone : transitionFrameOne newL.id s.timeTolerance_ d tl
          = (tl.1, hideFrame tl.2) := by
        unfold transitionFrameOne
        rw [if_neg]
        simp [hd]
      exact hone ▸ List.mem_map_of_mem _ htl

/-- C6 witness: the loaded-layer transition postcondition at a concrete
state with deviation 0. -/
theorem claim_C6_transition_postcondition_witness :
    (mkTile 7 true).loaded = true
    ∧ getTimeDeviation_ c6State 300 c6State.currentTime_ = some 0
    ∧ (C6Post c6State 300 none (mkTile 7 true) 0
       ∧ ∀ (t0 : Int) (m : Bool), (init none t0 m).timeTolerance_ = 7200000) :=
  ⟨rfl, by decide,
    claim_C6_transition_postcondition c6State 300 none (mkTile 7 true) 0 rfl (by decide)⟩

/-- C10: parsing a GeoJSON object reads exactly its `features` array into
the collection's models, and `toGeoJson` wraps the serialized models back
into a `FeatureCollection`, so parse-then-serialize preserves the feature
list. -/
theorem claim_C10_geojson_roundtrip (g : GeoJsonObject) :
    GeoJsonFeatureCollection.init g = g.features ∧
    GeoJsonFeatureCollection.toGeoJson (GeoJsonFeatureCollection.init g)
      = { type := "FeatureCollection", features := g.features } :=
  ⟨rfl, rfl⟩

end Aeris
